import Mathlib

/-!
Verification of the Financia webhook service (src/main.py).

The service is a FastAPI application with five handlers:
`root` (GET /), `health_check` (GET /health), `readiness_check`
(GET /readiness), `verify_webhook` (GET /webhook) and
`receive_webhook` (POST /webhook).  Each handler is embedded below as a
pure function of the environment variables it reads and of the request
data, returning an HTTP response together with the list of log lines it
emits.  Python `None`-able strings become `Option String`, Python
truthiness of an optional string becomes `pyBool`, and FastAPI's JSON
rendering of returned dicts / `HTTPException`s is made explicit in the
`ResponseBody` type.
-/

namespace Financia

/-- Shallow embedding of JSON values, as produced by `request.json()` and
returned by the handlers. -/
inductive Json where
  | null : Json
  | bool : Bool → Json
  | num : Int → Json
  | str : String → Json
  | arr : List Json → Json
  | obj : List (String × Json) → Json

/-- Body of an HTTP response: either raw plain text (Starlette
`PlainTextResponse`) or a JSON document (FastAPI's default rendering of a
returned dict, and of `HTTPException` as an object with a `detail` key). -/
inductive ResponseBody where
  | text : String → ResponseBody
  | json : Json → ResponseBody

/-- An HTTP response: status code and body. -/
structure Response where
  status : Nat
  body : ResponseBody

/-- Logging levels used by the handlers. -/
inductive LogLevel where
  | info : LogLevel
  | warning : LogLevel
  | error : LogLevel
deriving DecidableEq

/-- One emitted log line: its level and its formatted message. -/
structure LogEntry where
  level : LogLevel
  message : String
deriving DecidableEq

/-- Result of running a handler: the HTTP response plus the log lines it
emitted, in order. -/
structure HandlerResult where
  response : Response
  logs : List LogEntry

/-- Python truthiness of an optional string: `None` and `""` are falsy,
every non-empty string is truthy (used for `bool(hub_verify_token)` and
`if not expected_token`). -/
def pyBool : Option String → Bool
  | none => false
  | some s => !s.isEmpty

/-- Python `str()` of an optional string inside an f-string: `None`
prints as `"None"`, a string prints as itself. -/
def pyShow : Option String → String
  | none => "None"
  | some s => s

/-- Python `str()` of a boolean inside an f-string: `True` / `False`. -/
def pyBoolStr : Bool → String
  | true => "True"
  | false => "False"

/-- Handler for `GET /` (function `root` in src/main.py).  Reads the
`ENVIRONMENT` variable, defaulting to `"unknown"`. -/
def root (environment : Option String) : Response :=
  { status := 200,
    body := .json (.obj [
      ("name", .str "Financia API"),
      ("version", .str "0.1.0"),
      ("status", .str "running"),
      ("environment", .str (environment.getD "unknown"))]) }

/-- Handler for `GET /health` (function `health_check` in src/main.py). -/
def health_check (environment : Option String) : Response :=
  { status := 200,
    body := .json (.obj [
      ("status", .str "healthy"),
      ("service", .str "financia-api"),
      ("environment", .str (environment.getD "unknown"))]) }

/-- The `checks` dict of the readiness handler, as written in
src/main.py. -/
def readiness_checks : List (String × String) :=
  [("api", "ok"),
   ("secrets", "not_checked"),
   ("sheets", "not_checked"),
   ("gemini", "not_checked")]

/-- Handler for `GET /readiness` (function `readiness_check` in
src/main.py).  Takes no input and reads no environment. -/
def readiness_check : Response :=
  { status := 200,
    body := .json (.obj [
      ("status", .str "ready"),
      ("checks", .obj (readiness_checks.map fun p => (p.1, Json.str p.2)))]) }

/-- Handler for `GET /webhook` (function `verify_webhook` in src/main.py).
Inputs: the `WHATSAPP_WEBHOOK_VERIFY_TOKEN` environment variable and the
three optional query parameters (FastAPI `Query(None, ...)` defaults).
Mirrors the source line by line: first the request-info log line, then
the `if not expected_token` 500 branch, then the
`hub_mode == "subscribe" and hub_verify_token == expected_token` test;
`PlainTextResponse(content=None)` renders an empty body, and
`HTTPException` renders as a JSON object with a `detail` field. -/
def verify_webhook (expected_token hub_mode hub_verify_token hub_challenge :
    Option String) : HandlerResult :=
  let log1 : LogEntry :=
    { level := .info,
      message := "Webhook verification request: mode=" ++ pyShow hub_mode ++
        ", token_provided=" ++ pyBoolStr (pyBool hub_verify_token) }
  if pyBool expected_token then
    let tokenMatch : Bool := hub_verify_token == expected_token
    if hub_mode == some "subscribe" && tokenMatch then
      { response := { status := 200, body := .text (hub_challenge.getD "") },
        logs := [log1,
          { level := .info, message := "Webhook verification successful" }] }
    else
      { response :=
          { status := 403,
            body := .json (.obj [("detail", .str "Verification failed")]) },
        logs := [log1,
          { level := .warning,
            message := "Webhook verification failed: mode=" ++ pyShow hub_mode ++
              ", token_match=" ++ pyBoolStr tokenMatch }] }
  else
    { response :=
        { status := 500,
          body := .json (.obj [("detail", .str "Webhook token not configured")]) },
      logs := [log1,
        { level := .error,
          message := "WHATSAPP_WEBHOOK_VERIFY_TOKEN not configured" }] }

mutual

/-- Python `repr`/`str` of a decoded JSON value (a Python dict / list /
str / int / bool / `None`), as interpolated by `f"Received webhook: \x7bbody\x7d"`. -/
def pyRepr : Json → String
  | .null => "None"
  | .bool true => "True"
  | .bool false => "False"
  | .num n => toString n
  | .str s => "\x27" ++ s ++ "\x27"
  | .arr xs => "[" ++ pyReprList xs ++ "]"
  | .obj fs => "\x7b" ++ pyReprFields fs ++ "\x7d"

/-- Comma-separated `repr` of the elements of a Python list. -/
def pyReprList : List Json → String
  | [] => ""
  | [x] => pyRepr x
  | x :: xs => pyRepr x ++ ", " ++ pyReprList xs

/-- Comma-separated `repr` of the key-value pairs of a Python dict. -/
def pyReprFields : List (String × Json) → String
  | [] => ""
  | [(k, v)] => "\x27" ++ k ++ "\x27: " ++ pyRepr v
  | (k, v) :: fs => "\x27" ++ k ++ "\x27: " ++ pyRepr v ++ ", " ++ pyReprFields fs

end

/-- Handler for `POST /webhook` (function `receive_webhook` in
src/main.py).  The call `await request.json()` is external to the
repository, so its outcome is the handler's input: `Except.ok body` when
the request body parses as JSON, `Except.error e` when parsing (or
anything else inside the `try`) raises an exception whose `str()` is
`e`.  The `except Exception` branch still returns status 200. -/
def receive_webhook (parsed : Except String Json) : HandlerResult :=
  match parsed with
  | .ok body =>
    { response :=
        { status := 200,
          body := .json (.obj [("status", .str "received")]) },
      logs := [
        { level := .info,
          message := "Received webhook: " ++ pyRepr body }] }
  | .error e =>
    { response :=
        { status := 200,
          body := .json (.obj [("status", .str "error"), ("message", .str e)]) },
      logs := [
        { level := .error,
          message := "Error processing webhook: " ++ e }] }

/-! ### Helper lemmas -/

/-- A non-empty expected token is truthy. -/
theorem pyBool_some_of_ne (t : String) (ht : t ≠ "") :
    pyBool (some t) = true := by
  cases h : t.isEmpty with
  | false => simp [pyBool, h]
  | true => exact absurd ((String.isEmpty_iff t).mp h) ht

/-- Shared helper: with a configured non-empty token, any request whose
mode is not `"subscribe"` or whose supplied token differs is answered
with the 403 `Verification failed` response. -/
theorem verify_webhook_403 (t : String) (mode v ch : Option String)
    (ht : t ≠ "") (hfail : v ≠ some t ∨ mode ≠ some "subscribe") :
    (verify_webhook (some t) mode v ch).response =
      { status := 403,
        body := .json (.obj [("detail", .str "Verification failed")]) } := by
  have hpb := pyBool_some_of_ne t ht
  have hcond : (mode == some "subscribe" && (v == some t)) = false := by
    rcases hfail with h | h <;> simp [h]
  simp [verify_webhook, hpb, hcond]

/-! ### Claim theorems -/

/-- Claim C1: for every configured non-empty expected token `t` and every
GET /webhook request with `hub.mode = "subscribe"` and
`hub.verify_token = t` (exact string equality), the response has status
200 and its body is exactly the supplied `hub.challenge` string as plain
text, not JSON-wrapped. -/
theorem webhook_verify_success (t ch : String) (ht : t ≠ "") :
    (verify_webhook (some t) (some "subscribe") (some t) (some ch)).response =
      { status := 200, body := .text ch } := by
  have hpb := pyBool_some_of_ne t ht
  simp [verify_webhook, hpb]

/-- Witness for C1 at the spec's own example: token `abc123`,
challenge `999`. -/
theorem webhook_verify_success_witness :
    (verify_webhook (some "abc123") (some "subscribe") (some "abc123")
        (some "999")).response =
      { status := 200, body := .text "999" } :=
  webhook_verify_success "abc123" "999" (by decide)

/-- Claim C2: for every outcome of parsing the request body (well-formed
JSON or a raised exception), POST /webhook returns status 200; on a
parse error the 200 response body reports an error status and the
message. -/
theorem webhook_receive_always_200 (parsed : Except String Json) :
    (receive_webhook parsed).response.status = 200 ∧
    ∀ e, parsed = Except.error e →
      (receive_webhook parsed).response.body =
        .json (.obj [("status", .str "error"), ("message", .str e)]) := by
  refine ⟨?_, ?_⟩
  · cases parsed <;> rfl
  · intro e he
    subst he
    rfl

/-- Witness for C2 at a concrete parse failure. -/
theorem webhook_receive_always_200_witness :
    (receive_webhook (Except.error "Expecting value: line 1 column 1")).response.status
        = 200 ∧
    (receive_webhook (Except.error "Expecting value: line 1 column 1")).response.body =
      .json (.obj [("status", .str "error"),
        ("message", .str "Expecting value: line 1 column 1")]) :=
  ⟨(webhook_receive_always_200 (Except.error "Expecting value: line 1 column 1")).1,
   (webhook_receive_always_200 (Except.error "Expecting value: line 1 column 1")).2
     "Expecting value: line 1 column 1" rfl⟩

/-- Claim C3: if `WHATSAPP_WEBHOOK_VERIFY_TOKEN` is unset or empty, every
GET /webhook request returns HTTP 500 with the fixed generic message
`Webhook token not configured`, regardless of the supplied mode, token
and challenge parameters. -/
theorem webhook_verify_unconfigured_500 (e mode v ch : Option String)
    (he : e = none ∨ e = some "") :
    (verify_webhook e mode v ch).response =
      { status := 500,
        body := .json (.obj [("detail", .str "Webhook token not configured")]) } := by
  rcases he with h | h <;> subst h <;> rfl

/-- Witness for C3: unset token, otherwise valid-looking parameters. -/
theorem webhook_verify_unconfigured_500_witness :
    (verify_webhook none (some "subscribe") (some "abc123") (some "999")).response =
      { status := 500,
        body := .json (.obj [("detail", .str "Webhook token not configured")]) } :=
  webhook_verify_unconfigured_500 none (some "subscribe") (some "abc123")
    (some "999") (Or.inl rfl)

/-- Claim C4: with a configured non-empty expected token `t`, every
GET /webhook request whose token differs from `t` or whose mode differs
from `"subscribe"` returns HTTP 403 with the generic message
`Verification failed`, regardless of the challenge value. -/
theorem webhook_verify_mismatch_403 (t : String) (mode v ch : Option String)
    (ht : t ≠ "") (hfail : v ≠ some t ∨ mode ≠ some "subscribe") :
    (verify_webhook (some t) mode v ch).response =
      { status := 403,
        body := .json (.obj [("detail", .str "Verification failed")]) } :=
  verify_webhook_403 t mode v ch ht hfail

/-- Witness for C4 at the spec's example: token `abc123`, supplied
token `wrong`. -/
theorem webhook_verify_mismatch_403_witness :
    (verify_webhook (some "abc123") (some "subscribe") (some "wrong")
        (some "999")).response =
      { status := 403,
        body := .json (.obj [("detail", .str "Verification failed")]) } :=
  webhook_verify_mismatch_403 "abc123" (some "subscribe") (some "wrong")
    (some "999") (by decide) (Or.inl (by decide))

/-- Claim C5: for every well-formed JSON body, POST /webhook returns
HTTP 200 with body exactly `(status received)`, and its only side effect
is the single info log line recording the payload. -/
theorem webhook_receive_ok (body : Json) :
    (receive_webhook (Except.ok body)).response =
      { status := 200, body := .json (.obj [("status", .str "received")]) } ∧
    (receive_webhook (Except.ok body)).logs =
      [{ level := .info, message := "Received webhook: " ++ pyRepr body }] :=
  ⟨rfl, rfl⟩

/-- Counterexample to C6 as stated: the sub-checks are not all reported
as not performed — the `api` sub-check is reported `"ok"`, not
`"not_checked"`. -/
theorem readiness_api_not_unchecked :
    readiness_checks.lookup "api" = some "ok" ∧
    ¬ (∀ p ∈ readiness_checks, p.2 = "not_checked") :=
  ⟨rfl, by decide⟩

/-- Claim C6 (amended): GET /readiness returns a fixed `ready` status
with sub-check labels api, secrets, sheets, gemini; `api` is reported
`"ok"` while `secrets`, `sheets` and `gemini` are reported as not
performed (`"not_checked"`). -/
theorem readiness_fixed_response :
    readiness_check.status = 200 ∧
    readiness_check.body = .json (.obj [
      ("status", .str "ready"),
      ("checks", .obj [
        ("api", .str "ok"),
        ("secrets", .str "not_checked"),
        ("sheets", .str "not_checked"),
        ("gemini", .str "not_checked")])]) :=
  ⟨rfl, rfl⟩

/-- Claim C7: GET /, GET /health and GET /readiness return HTTP 200 for
every environment configuration state; with `ENVIRONMENT` missing, the
environment field of / and /health is the literal string `"unknown"`. -/
theorem identity_endpoints_always_200 (env : Option String) :
    (root env).status = 200 ∧
    (health_check env).status = 200 ∧
    readiness_check.status = 200 ∧
    root none =
      { status := 200,
        body := .json (.obj [
          ("name", .str "Financia API"),
          ("version", .str "0.1.0"),
          ("status", .str "running"),
          ("environment", .str "unknown")]) } ∧
    health_check none =
      { status := 200,
        body := .json (.obj [
          ("status", .str "healthy"),
          ("service", .str "financia-api"),
          ("environment", .str "unknown")]) } :=
  ⟨rfl, rfl, rfl, rfl, rfl⟩

/-- Claim C8 (noninterference): the log output of the GET /webhook
handler depends on the expected and supplied token values only through
the booleans the code logs — whether a token was supplied, whether the
expected token is configured, and whether the two matched.  Two runs
that agree on those booleans (and the mode) produce identical logs, so
no token string reaches the logs. -/
theorem webhook_verify_logs_token_independent
    (mode ch₁ ch₂ e₁ e₂ v₁ v₂ : Option String)
    (hconf : pyBool e₁ = pyBool e₂)
    (hprov : pyBool v₁ = pyBool v₂)
    (hmatch : (v₁ == e₁) = (v₂ == e₂)) :
    (verify_webhook e₁ mode v₁ ch₁).logs =
      (verify_webhook e₂ mode v₂ ch₂).logs := by
  simp only [verify_webhook]
  rw [hconf, hprov, hmatch]
  cases hpe : pyBool e₂ <;>
    cases hc : (mode == some "subscribe" && (v₂ == e₂)) <;>
      simp [hpe, hc]

/-- Witness for C8: two runs with different secrets, different supplied
tokens and different challenges, agreeing only on the logged booleans,
emit the same log lines. -/
theorem webhook_verify_logs_token_independent_witness :
    (verify_webhook (some "secretA") (some "subscribe") (some "guessA")
        (some "111")).logs =
      (verify_webhook (some "secretB") (some "subscribe") (some "guessB")
        (some "222")).logs :=
  webhook_verify_logs_token_independent (some "subscribe") (some "111")
    (some "222") (some "secretA") (some "secretB") (some "guessA")
    (some "guessB") (by decide) (by decide) (by decide)

/-- Counterexample to C9 as stated: a request missing only
`hub.challenge`, with mode `subscribe` and a matching token, does not
fall through to the 403 branch — the condition at src/main.py:75 holds
and the handler answers 200 with an empty plain-text body
(`PlainTextResponse(content=None)`). -/
theorem webhook_verify_challenge_missing_200 :
    (verify_webhook (some "abc123") (some "subscribe") (some "abc123")
        none).response =
      { status := 200, body := .text "" } ∧
    (verify_webhook (some "abc123") (some "subscribe") (some "abc123")
        none).response.status ≠ 403 :=
  ⟨rfl, by decide⟩

/-- Claim C9 (amended): the three query parameters of GET /webhook are
optional with default `None`, so a request missing any or all of them is
never rejected as malformed.  With a configured non-empty token, a
request missing `hub.mode` or `hub.verify_token` falls through to the
403 verification-failure branch (`None` never equals `"subscribe"` or a
non-empty token); a request missing only `hub.challenge`, with valid
mode and matching token, is instead answered 200 with an empty
plain-text body. -/
theorem webhook_verify_optional_params (t : String) (ht : t ≠ "") :
    (∀ mode v ch : Option String, mode = none ∨ v = none →
      (verify_webhook (some t) mode v ch).response =
        { status := 403,
          body := .json (.obj [("detail", .str "Verification failed")]) }) ∧
    (verify_webhook (some t) (some "subscribe") (some t) none).response =
      { status := 200, body := .text "" } := by
  constructor
  · intro mode v ch hmiss
    apply verify_webhook_403 t mode v ch ht
    rcases hmiss with h | h
    · right
      simp [h]
    · left
      simp [h]
  · have hpb := pyBool_some_of_ne t ht
    simp [verify_webhook, hpb]

/-- Witness for amended C9: token `abc123`; all parameters absent gives
403, only the challenge absent gives 200 with empty body. -/
theorem webhook_verify_optional_params_witness :
    (verify_webhook (some "abc123") none none none).response =
      { status := 403,
        body := .json (.obj [("detail", .str "Verification failed")]) } ∧
    (verify_webhook (some "abc123") (some "subscribe") (some "abc123")
        none).response =
      { status := 200, body := .text "" } :=
  ⟨(webhook_verify_optional_params "abc123" (by decide)).1 none none none
      (Or.inl rfl),
   (webhook_verify_optional_params "abc123" (by decide)).2⟩

/-- Claim C10: in the malformed-body branch of POST /webhook, the
`message` field of the 200 error body is exactly the string of the
caught exception, echoed verbatim to the caller. -/
theorem webhook_receive_error_echoes_exception (e : String) :
    (receive_webhook (Except.error e)).response =
      { status := 200,
        body := .json (.obj [("status", .str "error"), ("message", .str e)]) } :=
  rfl

end Financia
